import Mathlib

/-!
# Shallow embedding of the EVR (VME-EVR-230/RF) network driver

This file embeds the core of `evr.c` (the revision containing the CML and
TTL/UNIV operations): the UDP register transport (`readreg`, `writereg`),
the write-verify helper (`writecheck`), the device registry (`configure`),
and the hardware-control operations, and proves the spec's claims about
them.

Modelling conventions:
* machine integers are `Nat` with explicit `% 2^w` where C truncates;
* the UDP network is a schedule of per-attempt outcomes (wire level) or a
  per-transport-call success schedule (operation level);
* the device register file is a function `Nat → Nat` holding 16-bit values;
* `pthread_mutex_lock`/`unlock` and message sends are recorded as events in
  an execution trace, so locking discipline and "no message sent" claims
  are statements about traces.
-/

namespace Evr

/-! ## Constants from `evr.h` and `evr.c` -/

def NUMBER_OF_DEVICES : Nat := 10
def NUMBER_OF_RETRIES : Nat := 3
def NAME_LENGTH : Nat := 30
def REGISTER_BASE_ADDRESS : Nat := 0x7a000000

def ACCESS_READ : Nat := 1
def ACCESS_WRITE : Nat := 2

def REGISTER_CONTROL : Nat := 0x00
def REGISTER_MAP_ADDRESS : Nat := 0x02
def REGISTER_MAP_DATA : Nat := 0x04
def REGISTER_PULSE_ENABLE : Nat := 0x06
def REGISTER_PDP_ENABLE : Nat := 0x18
def REGISTER_PULSE_SELECT : Nat := 0x1a
def REGISTER_PULSE_PRESCALAR : Nat := 0x28
def REGISTER_USEC_DIVIDER : Nat := 0x4e
def REGISTER_PULSE_DELAY : Nat := 0x6c
def REGISTER_PULSE_WIDTH : Nat := 0x70
def REGISTER_PRESCALAR_0 : Nat := 0x74

/-- Modelled from the spec: front-panel TTL source registers start at
`0x40` (the header revision defining `REGISTER_FP_TTL0` is not in `src/`). -/
def REGISTER_FP_TTL0 : Nat := 0x40

/-- Modelled from the spec: front-panel UNIV source registers start at
`0x90` (the header revision defining `REGISTER_FP_UNIV0` is not in `src/`). -/
def REGISTER_FP_UNIV0 : Nat := 0x90

/-- Modelled from the spec: CML channel-4 enable register at `0xB0`,
channels 5/6 at a `0x20` stride (header revision not in `src/`). -/
def REGISTER_CML4_ENABLE : Nat := 0xb0

/-- Modelled from the spec: CML channel-4 high-prescaler register at `0xB4`. -/
def REGISTER_CML4_HP : Nat := 0xb4

/-- Modelled from the spec: CML channel-4 low-prescaler register at `0xB6`. -/
def REGISTER_CML4_LP : Nat := 0xb6

def CONTROL_EVR_ENABLE : Nat := 0x8000
def CONTROL_MAP_ENABLE : Nat := 0x0200
def CONTROL_FLUSH : Nat := 0x0080
def PULSE_SELECT_OFFSET : Nat := 16

def NUMBER_OF_PULSERS : Nat := 14
def NUMBER_OF_PDP : Nat := 4
def NUMBER_OF_PRESCALERS : Nat := 3
/-- From the code's own range check message "Cml must be 0-2". -/
def NUMBER_OF_CML : Nat := 3
/-- From the code's own range check message "Ttl must be 0-7". -/
def NUMBER_OF_TTL : Nat := 8
/-- From the code's own range check message "Univ must be 0-3". -/
def NUMBER_OF_UNIV : Nat := 4
/-- From the code's own range check message "Source must be < 64". -/
def NUMBER_OF_SOURCES : Nat := 64
def MAX_EVENT_FREQUENCY : Nat := 125

/-- Modelled from the spec: the CML enable register value is two flags OR'd
(frequency mode + enable).  The numeric flag values live in a header
revision not in `src/`; none of the properties proved here depend on them. -/
def CML_FREQUENCY_MODE : Nat := 0x2

/-- Modelled from the spec: CML enable flag, see `CML_FREQUENCY_MODE`. -/
def CML_ENABLE : Nat := 0x1

def UINT_MAX : Nat := 4294967295
def USHRT_MAX : Nat := 65535

/-! ## Wire format

`message_t` is sent as 12 bytes: `access` (1 byte), `status` (1 byte),
`data` (2 bytes), `address` (4 bytes), `reference` (4 bytes); `htons` /
`htonl` put `data` and `address` in network byte order (big-endian). -/

/-- Big-endian bytes of a 16-bit value. -/
def be16 (v : Nat) : List Nat := [v / 256 % 256, v % 256]

/-- Big-endian bytes of a 32-bit value. -/
def be32 (v : Nat) : List Nat :=
  [v / 16777216 % 256, v / 65536 % 256, v / 256 % 256, v % 256]

/-- The 12 bytes of the read request built by `readreg`:
`access=ACCESS_READ`, `status=0`, `data=0`,
`address=htonl(REGISTER_BASE_ADDRESS + reg)`, `reference=0`. -/
def readRequestBytes (reg : Nat) : List Nat :=
  [ACCESS_READ, 0] ++ be16 0 ++
    be32 ((REGISTER_BASE_ADDRESS + reg) % 4294967296) ++ be32 0

/-- The 12 bytes of the write request built by `writereg`:
`access=ACCESS_WRITE`, `status=0`, `data=htons(data)`,
`address=htonl(REGISTER_BASE_ADDRESS + reg)`, `reference=0`.
The `data` parameter has C type `uint16_t`, hence the `% 65536`. -/
def writeRequestBytes (reg data : Nat) : List Nat :=
  [ACCESS_WRITE, 0] ++ be16 (data % 65536) ++
    be32 ((REGISTER_BASE_ADDRESS + reg) % 4294967296) ++ be32 0

/-- Decode the 16-bit `data` field of a 12-byte reply back to host order
(`ntohs(message.data)`): bytes at offsets 2 and 3, big-endian. -/
def replyData (bs : List Nat) : Nat :=
  (bs.getD 2 0) % 256 * 256 + (bs.getD 3 0) % 256

/-! ## Wire-level transport with retries

Each loop iteration of `readreg`/`writereg` does `write` (send), `poll`
(wait up to 1000 ms) and `read` (receive).  One iteration's outcome is: the
send wrote fewer than 12 bytes, the poll timed out or failed, or the read
returned some bytes (a full-size 12-byte reply ends the loop; any other
size retries). -/

inductive Attempt where
  | sendFail : Attempt
  | pollTimeout : Attempt
  | recv : List Nat → Attempt
  deriving DecidableEq, Repr

/-- Outcome of one send/poll/read iteration: `some bs` when the full
12-byte message was sent and a full-size (12-byte) reply `bs` came back,
`none` otherwise (the loop then retries). -/
def attemptReply (a : Attempt) : Option (List Nat) :=
  match a with
  | .sendFail => none
  | .pollTimeout => none
  | .recv bs => if bs.length = 12 then some bs else none

/-- The retry loop body: first full-size reply among the scheduled
attempts, if any. -/
def firstReply (sched : List Attempt) : Option (List Nat) :=
  match sched with
  | [] => none
  | a :: rest =>
    match attemptReply a with
    | some bs => some bs
    | none => firstReply rest

/-- `readreg`: retries up to `NUMBER_OF_RETRIES` send/wait cycles; on
success returns the reply's data field byte-swapped back to host order,
on exhaustion fails (C returns `-1`, modelled as `none`). -/
def readreg (sched : List Attempt) (reg : Nat) : Option Nat :=
  match firstReply (sched.take NUMBER_OF_RETRIES) with
  | some bs => some (replyData bs)
  | none => none

/-- `writereg`: same retry loop as `readreg`; the reply's content is not
inspected further, only its size. -/
def writereg (sched : List Attempt) (reg data : Nat) : Option Unit :=
  match firstReply (sched.take NUMBER_OF_RETRIES) with
  | some _ => some ()
  | none => none

/-- `writecheck`: `writereg` then `readreg` on the same register, then
compare the read-back value with the written one; any failure — of the
write, of the read, or of the comparison — returns the same `-1`.
`wsched` and `rsched` are the network's behaviour for the write call and
the read call respectively. -/
def writecheck (wsched rsched : List Attempt) (reg data : Nat) : Int :=
  match writereg wsched reg data with
  | none => -1
  | some _ =>
    match readreg rsched reg with
    | none => -1
    | some readback => if readback ≠ data % 65536 then -1 else 0

/-! ## Operation-level model

The hardware-control operations call the transport once per register
access.  At this level one transport call either succeeds (the device's
register file answers/latches) or fails (`readreg`/`writereg` exhausted
their retries); the retry mechanics themselves are verified at the wire
level above.  `pthread_mutex_lock`/`unlock`, every message send, and the
microseconds-to-cycles conversion of the PDP setters are recorded as
events, so locking discipline, "no message sent" and "divisor used"
claims become statements about traces.

The C functions' `!dev` null-pointer branches are not representable here
(the embedding has no null handles) and are dropped; every other branch is
kept. -/

inductive Ev where
  | lock : Ev
  | unlock : Ev
  | send : List Nat → Ev
  | conv : Nat → Ev
  deriving DecidableEq, Repr

structure Hw where
  /-- Device register file (16-bit values). -/
  regs : Nat → Nat
  /-- Per-transport-call success schedule; exhausted schedule = success. -/
  net : List Bool
  /-- Events so far, oldest first. -/
  trace : List Ev

def Hw.emit (s : Hw) (e : Ev) : Hw := { s with trace := s.trace ++ [e] }

def Hw.step (s : Hw) : Bool × Hw :=
  match s.net with
  | [] => (true, s)
  | b :: rest => (b, { s with net := rest })

def Hw.read (s : Hw) (reg : Nat) : Nat := s.regs reg % 65536

def Hw.write (s : Hw) (reg data : Nat) : Hw :=
  { s with regs := fun r => if r = reg then data % 65536 else s.regs r }

/-- One `readreg` call as seen by an operation: sends the read request and,
if the transport succeeds, returns the register's 16-bit value. -/
def readregOp (reg : Nat) (s : Hw) : Option Nat × Hw :=
  let s1 := s.emit (.send (readRequestBytes reg))
  let (ok, s2) := s1.step
  if ok then (some (s2.read reg), s2) else (none, s2)

/-- One `writereg` call as seen by an operation: sends the write request
and, if the transport succeeds, the device latches the 16-bit value. -/
def writeregOp (reg data : Nat) (s : Hw) : Option Unit × Hw :=
  let s1 := s.emit (.send (writeRequestBytes reg data))
  let (ok, s2) := s1.step
  if ok then (some (), s2.write reg data) else (none, s2)

/-- One `writecheck` call as seen by an operation: `writereg`, `readreg`,
compare; returns the C status code (`0` ok, `-1` on any failure). -/
def writecheckOp (reg data : Nat) (s : Hw) : Int × Hw :=
  match writeregOp reg data s with
  | (none, s1) => (-1, s1)
  | (some _, s1) =>
    match readregOp reg s1 with
    | (none, s2) => (-1, s2)
    | (some readback, s2) =>
      if readback ≠ data % 65536 then (-1, s2) else (0, s2)

/-- C conversion of a nonnegative `float`/`double` quantity to `uint32_t`:
truncation toward zero, wrapped to 32 bits.  (The rounding of the C
single-precision multiplication itself is not modelled; see the notes on
the unit-conversion claim.) -/
def ratToU32 (q : ℚ) : Nat := q.floor.toNat % 4294967296

/-- `evr_enable`: locks, then writes the control register with the fixed
constant `CONTROL_EVR_ENABLE | CONTROL_MAP_ENABLE` (enable) or `0`
(disable) — a plain `writereg`, not a read-modify-write. -/
def evr_enable (enable : Bool) (s : Hw) : Int × Hw :=
  let s := s.emit .lock
  if enable then
    match writeregOp REGISTER_CONTROL (CONTROL_EVR_ENABLE ||| CONTROL_MAP_ENABLE) s with
    | (none, s1) => (-1, s1.emit .unlock)
    | (some _, s1) => (0, s1.emit .unlock)
  else
    match writeregOp REGISTER_CONTROL 0 s with
    | (none, s1) => (-1, s1.emit .unlock)
    | (some _, s1) => (0, s1.emit .unlock)

/-- `evr_enablePulser`: locks, validates the pulser index, reads the
pulse-enable register, sets/clears bit `pulser`, writes the new mask back
with verification.  `data &= ~(1<<pulser)` on a `uint16_t` is
`data &&& (65535 ^^^ (1 <<< pulser))`. -/
def evr_enablePulser (pulser : Nat) (enable : Bool) (s : Hw) : Int × Hw :=
  let s := s.emit .lock
  if pulser ≥ NUMBER_OF_PULSERS then (-1, s.emit .unlock)
  else
    match readregOp REGISTER_PULSE_ENABLE s with
    | (none, s1) => (-1, s1.emit .unlock)
    | (some data, s1) =>
      let data := if enable then data ||| (1 <<< pulser)
                  else data &&& (65535 ^^^ (1 <<< pulser))
      let (st, s2) := writecheckOp REGISTER_PULSE_ENABLE data s1
      if st < 0 then (-1, s2.emit .unlock) else (0, s2.emit .unlock)

/-- `evr_enablePdp`: same read-modify-write shape as `evr_enablePulser`,
on the PDP enable register. -/
def evr_enablePdp (pdp : Nat) (enable : Bool) (s : Hw) : Int × Hw :=
  let s := s.emit .lock
  if pdp ≥ NUMBER_OF_PDP then (-1, s.emit .unlock)
  else
    match readregOp REGISTER_PDP_ENABLE s with
    | (none, s1) => (-1, s1.emit .unlock)
    | (some data, s1) =>
      let data := if enable then data ||| (1 <<< pdp)
                  else data &&& (65535 ^^^ (1 <<< pdp))
      let (st, s2) := writecheckOp REGISTER_PDP_ENABLE data s1
      if st < 0 then (-1, s2.emit .unlock) else (0, s2.emit .unlock)

/-- `evr_setPulserDelay`: locks, validates the pulser index and the delay
range (`UINT_MAX/frequency` is C unsigned division), converts microseconds
to cycles, selects the pulser (index + `PULSE_SELECT_OFFSET`), then writes
the two 16-bit halves of the 32-bit cycle count. -/
def evr_setPulserDelay (freq pulser : Nat) (delay : ℚ) (s : Hw) : Int × Hw :=
  let s := s.emit .lock
  if pulser ≥ NUMBER_OF_PULSERS then (-1, s.emit .unlock)
  else if delay < 0 ∨ delay > ((UINT_MAX / freq : Nat) : ℚ) then (-1, s.emit .unlock)
  else
    let cycles := ratToU32 (delay * freq)
    let (st, s1) := writecheckOp REGISTER_PULSE_SELECT (pulser + PULSE_SELECT_OFFSET) s
    if st < 0 then (-1, s1.emit .unlock)
    else
      let (st2, s2) := writecheckOp REGISTER_PULSE_DELAY (cycles >>> 16) s1
      if st2 < 0 then (-1, s2.emit .unlock)
      else
        let (st3, s3) := writecheckOp (REGISTER_PULSE_DELAY + 2) cycles s2
        if st3 < 0 then (-1, s3.emit .unlock) else (0, s3.emit .unlock)

/-- `evr_setPulserWidth`: like the delay setter but the width is a 16-bit
quantity bounded by `USHRT_MAX/frequency`, written to one register. -/
def evr_setPulserWidth (freq pulser : Nat) (width : ℚ) (s : Hw) : Int × Hw :=
  let s := s.emit .lock
  if pulser ≥ NUMBER_OF_PULSERS then (-1, s.emit .unlock)
  else if width < 0 ∨ width > ((USHRT_MAX / freq : Nat) : ℚ) then (-1, s.emit .unlock)
  else
    let cycles := ratToU32 (width * freq) % 65536
    let (st, s1) := writecheckOp REGISTER_PULSE_SELECT (pulser + PULSE_SELECT_OFFSET) s
    if st < 0 then (-1, s1.emit .unlock)
    else
      let (st2, s2) := writecheckOp (REGISTER_PULSE_WIDTH + 2) cycles s1
      if st2 < 0 then (-1, s2.emit .unlock) else (0, s2.emit .unlock)

/-- `evr_setPdpPrescaler`: locks, validates the PDP index, selects the PDP
(no offset), writes the prescaler with verification. -/
def evr_setPdpPrescaler (pdp prescaler : Nat) (s : Hw) : Int × Hw :=
  let s := s.emit .lock
  if pdp ≥ NUMBER_OF_PDP then (-1, s.emit .unlock)
  else
    let (st, s1) := writecheckOp REGISTER_PULSE_SELECT pdp s
    if st < 0 then (-1, s1.emit .unlock)
    else
      let (st2, s2) := writecheckOp REGISTER_PULSE_PRESCALAR prescaler s1
      if st2 < 0 then (-1, s2.emit .unlock) else (0, s2.emit .unlock)

/-- `evr_setPdpDelay`: locks, validates, selects the PDP, reads the
channel's prescaler back from the device, converts
`cycles = delay*frequency/prescaler` (the division's divisor is the
read-back prescaler — recorded as a `conv` event — with no zero check),
then writes the two 16-bit halves. -/
def evr_setPdpDelay (freq pdp : Nat) (delay : ℚ) (s : Hw) : Int × Hw :=
  let s := s.emit .lock
  if pdp ≥ NUMBER_OF_PDP then (-1, s.emit .unlock)
  else if delay < 0 ∨ delay > ((UINT_MAX / freq : Nat) : ℚ) then (-1, s.emit .unlock)
  else
    let (st, s1) := writecheckOp REGISTER_PULSE_SELECT pdp s
    if st < 0 then (-1, s1.emit .unlock)
    else
      match readregOp REGISTER_PULSE_PRESCALAR s1 with
      | (none, s2) => (-1, s2.emit .unlock)
      | (some prescaler, s2) =>
        let s2 := s2.emit (.conv prescaler)
        let cycles := ratToU32 (delay * freq / prescaler)
        let (st2, s3) := writecheckOp REGISTER_PULSE_DELAY (cycles >>> 16) s2
        if st2 < 0 then (-1, s3.emit .unlock)
        else
          let (st3, s4) := writecheckOp (REGISTER_PULSE_DELAY + 2) cycles s3
          if st3 < 0 then (-1, s4.emit .unlock) else (0, s4.emit .unlock)

/-- `evr_setPdpWidth`: identical shape to `evr_setPdpDelay`, on the width
registers; the conversion again divides by the read-back prescaler with no
zero check. -/
def evr_setPdpWidth (freq pdp : Nat) (width : ℚ) (s : Hw) : Int × Hw :=
  let s := s.emit .lock
  if pdp ≥ NUMBER_OF_PDP then (-1, s.emit .unlock)
  else if width < 0 ∨ width > ((UINT_MAX / freq : Nat) : ℚ) then (-1, s.emit .unlock)
  else
    let (st, s1) := writecheckOp REGISTER_PULSE_SELECT pdp s
    if st < 0 then (-1, s1.emit .unlock)
    else
      match readregOp REGISTER_PULSE_PRESCALAR s1 with
      | (none, s2) => (-1, s2.emit .unlock)
      | (some prescaler, s2) =>
        let s2 := s2.emit (.conv prescaler)
        let cycles := ratToU32 (width * freq / prescaler)
        let (st2, s3) := writecheckOp REGISTER_PULSE_WIDTH (cycles >>> 16) s2
        if st2 < 0 then (-1, s3.emit .unlock)
        else
          let (st3, s4) := writecheckOp (REGISTER_PULSE_WIDTH + 2) cycles s3
          if st3 < 0 then (-1, s4.emit .unlock) else (0, s4.emit .unlock)

/-- `evr_setClock`: locks, rejects frequencies above the rated maximum,
writes the microsecond divider with verification. -/
def evr_setClock (frequency : Nat) (s : Hw) : Int × Hw :=
  let s := s.emit .lock
  if frequency > MAX_EVENT_FREQUENCY then (-1, s.emit .unlock)
  else
    let (st, s1) := writecheckOp REGISTER_USEC_DIVIDER frequency s
    if st < 0 then (-1, s1.emit .unlock) else (0, s1.emit .unlock)

/-- `evr_setPrescaler`: locks, validates the prescaler index, writes the
selected prescaler register (stride 2 from prescaler 0). -/
def evr_setPrescaler (select prescaler : Nat) (s : Hw) : Int × Hw :=
  let s := s.emit .lock
  if select ≥ NUMBER_OF_PRESCALERS then (-1, s.emit .unlock)
  else
    let (st, s1) := writecheckOp (REGISTER_PRESCALAR_0 + select * 2) prescaler s
    if st < 0 then (-1, s1.emit .unlock) else (0, s1.emit .unlock)

/-- `evr_setTTLSource`: locks, validates the TTL index and source, writes
the per-output front-panel map register (stride 2 from TTL 0). -/
def evr_setTTLSource (ttl source : Nat) (s : Hw) : Int × Hw :=
  let s := s.emit .lock
  if ttl ≥ NUMBER_OF_TTL then (-1, s.emit .unlock)
  else if source ≥ NUMBER_OF_SOURCES then (-1, s.emit .unlock)
  else
    let (st, s1) := writecheckOp (REGISTER_FP_TTL0 + ttl * 2) source s
    if st < 0 then (-1, s1.emit .unlock) else (0, s1.emit .unlock)

/-- `evr_setUNIVSource`: locks, validates the UNIV index and source, writes
the per-output front-panel map register (stride 2 from UNIV 0). -/
def evr_setUNIVSource (univ source : Nat) (s : Hw) : Int × Hw :=
  let s := s.emit .lock
  if univ ≥ NUMBER_OF_UNIV then (-1, s.emit .unlock)
  else if source ≥ NUMBER_OF_SOURCES then (-1, s.emit .unlock)
  else
    let (st, s1) := writecheckOp (REGISTER_FP_UNIV0 + univ * 2) source s
    if st < 0 then (-1, s1.emit .unlock) else (0, s1.emit .unlock)

/-- `evr_enableCml`.  Uniquely among the operations, its input checks come
BEFORE `pthread_mutex_lock`, yet the check-failure paths still call
`pthread_mutex_unlock` — they unlock a mutex the call never locked.  The
embedding reproduces that order faithfully. -/
def evr_enableCml (cml : Nat) (enable : Bool) (s : Hw) : Int × Hw :=
  if cml ≥ NUMBER_OF_CML then (-1, s.emit .unlock)
  else
    let s := s.emit .lock
    let data := if enable then CML_FREQUENCY_MODE + CML_ENABLE else CML_FREQUENCY_MODE
    let (st, s1) := writecheckOp (REGISTER_CML4_ENABLE + cml * 0x20) data s
    if st < 0 then (-1, s1.emit .unlock) else (0, s1.emit .unlock)

/-- `evr_setCmlPrescaler`: locks, validates the CML index, writes
`prescaler/2` to the channel's high-prescaler register and
`prescaler - prescaler/2` to its low-prescaler register (stride `0x20`
from channel 0); both writes pass through `writecheck`, whose `uint16_t`
parameter truncates the 32-bit halves to 16 bits. -/
def evr_setCmlPrescaler (cml prescaler : Nat) (s : Hw) : Int × Hw :=
  let s := s.emit .lock
  if cml ≥ NUMBER_OF_CML then (-1, s.emit .unlock)
  else
    let (st, s1) := writecheckOp (REGISTER_CML4_HP + cml * 0x20) (prescaler / 2) s
    if st < 0 then (-1, s1.emit .unlock)
    else
      let (st2, s2) := writecheckOp (REGISTER_CML4_LP + cml * 0x20)
        (prescaler - prescaler / 2) s1
      if st2 < 0 then (-1, s2.emit .unlock) else (0, s2.emit .unlock)

/-- `evr_getCmlPrescaler`: locks, validates the CML index, reads the high-
then the low-prescaler register and returns their sum. -/
def evr_getCmlPrescaler (cml : Nat) (s : Hw) : Option Nat × Hw :=
  let s := s.emit .lock
  if cml ≥ NUMBER_OF_CML then (none, s.emit .unlock)
  else
    match readregOp (REGISTER_CML4_HP + cml * 0x20) s with
    | (none, s1) => (none, s1.emit .unlock)
    | (some hp, s1) =>
      match readregOp (REGISTER_CML4_LP + cml * 0x20) s1 with
      | (none, s2) => (none, s2.emit .unlock)
      | (some lp, s2) => (some (hp + lp), s2.emit .unlock)

/-! ## Device registry (`configure`) -/

/-- One registry slot as filled in by `configure`. -/
structure device_conf where
  name : String
  ip : Nat
  port : Nat
  frequency : Nat
  deriving DecidableEq, Repr

/-- C `atoi` on the digit strings used by `configure` (an optional sign
followed by leading decimal digits; leading whitespace is not modelled). -/
def atoiDigits : List Char → Int → Int
  | [], acc => acc
  | c :: rest, acc =>
    if c.isDigit then atoiDigits rest (acc * 10 + ((c.toNat : Int) - 48))
    else acc

def atoiInt (str : String) : Int :=
  match str.data with
  | '-' :: rest => - atoiDigits rest 0
  | '+' :: rest => atoiDigits rest 0
  | cs => atoiDigits cs 0

/-- `htons` on a 16-bit value as stored on the (little-endian) hosts this
driver targets: byte swap. -/
def htons16 (v : Nat) : Nat := v % 256 * 256 + v / 256 % 256

/-- `configure(name, ip, port, frequency)`: the validations, in source
order — registry not full, name non-empty and shorter than `NAME_LENGTH`,
`atoi(port)` nonzero and at most `USHRT_MAX`, `atoi(frequency)` nonzero,
hostname resolvable (`resolver` models `gethostbyname`).  On success a new
slot is appended.  There is no duplicate-name check.  (The `!name`/`!ip`
null-pointer checks are not representable over `String` and are dropped;
failure is modelled as `none`, the C global registry being left
untouched.) -/
def configure (resolver : String → Option Nat) (devices : List device_conf)
    (name ip port frequency : String) : Option (List device_conf) :=
  if devices.length ≥ NUMBER_OF_DEVICES then none
  else if name.length = 0 ∨ name.length ≥ NAME_LENGTH then none
  else if atoiInt port = 0 ∨ atoiInt port > (USHRT_MAX : Int) then none
  else if atoiInt frequency = 0 then none
  else
    match resolver ip with
    | none => none
    | some addr =>
      some (devices ++ [{ name := name, ip := addr,
                          port := htons16 ((atoiInt port).toNat % 65536),
                          frequency := (atoiInt frequency).toNat % 4294967296 }])

/-- `evr_open`: linear search of the registry by name (first match). -/
def evr_open (devices : List device_conf) (name : String) : Option device_conf :=
  if name.length = 0 ∨ name.length ≥ NAME_LENGTH then none
  else devices.find? (fun d => d.name = name)

/-! ## Validation dispatch

`runOp` packages the embedded operations so the fail-fast claim can be
stated once over all of them; `rejectsOp` is each operation's
input-validation condition, read off the same `if`s the operations use. -/

inductive CoreOp where
  | enablePulser : Nat → Bool → CoreOp
  | enablePdp : Nat → Bool → CoreOp
  | setPulserDelay : Nat → Nat → ℚ → CoreOp
  | setPulserWidth : Nat → Nat → ℚ → CoreOp
  | setPdpPrescaler : Nat → Nat → CoreOp
  | setPdpDelay : Nat → Nat → ℚ → CoreOp
  | setPdpWidth : Nat → Nat → ℚ → CoreOp
  | setClock : Nat → CoreOp
  | setPrescaler : Nat → Nat → CoreOp
  | setTTLSource : Nat → Nat → CoreOp
  | setUNIVSource : Nat → Nat → CoreOp
  | enableCml : Nat → Bool → CoreOp
  | setCmlPrescaler : Nat → Nat → CoreOp

def runOp : CoreOp → Hw → Int × Hw
  | .enablePulser p b, s => evr_enablePulser p b s
  | .enablePdp p b, s => evr_enablePdp p b s
  | .setPulserDelay f p d, s => evr_setPulserDelay f p d s
  | .setPulserWidth f p w, s => evr_setPulserWidth f p w s
  | .setPdpPrescaler p v, s => evr_setPdpPrescaler p v s
  | .setPdpDelay f p d, s => evr_setPdpDelay f p d s
  | .setPdpWidth f p w, s => evr_setPdpWidth f p w s
  | .setClock f, s => evr_setClock f s
  | .setPrescaler sel v, s => evr_setPrescaler sel v s
  | .setTTLSource t src, s => evr_setTTLSource t src s
  | .setUNIVSource u src, s => evr_setUNIVSource u src s
  | .enableCml c b, s => evr_enableCml c b s
  | .setCmlPrescaler c v, s => evr_setCmlPrescaler c v s

/-- The operation's input validation fails (some range check fires). -/
def rejectsOp : CoreOp → Bool
  | .enablePulser p _ => p ≥ NUMBER_OF_PULSERS
  | .enablePdp p _ => p ≥ NUMBER_OF_PDP
  | .setPulserDelay f p d =>
    p ≥ NUMBER_OF_PULSERS || d < 0 || d > ((UINT_MAX / f : Nat) : ℚ)
  | .setPulserWidth f p w =>
    p ≥ NUMBER_OF_PULSERS || w < 0 || w > ((USHRT_MAX / f : Nat) : ℚ)
  | .setPdpPrescaler p _ => p ≥ NUMBER_OF_PDP
  | .setPdpDelay f p d =>
    p ≥ NUMBER_OF_PDP || d < 0 || d > ((UINT_MAX / f : Nat) : ℚ)
  | .setPdpWidth f p w =>
    p ≥ NUMBER_OF_PDP || w < 0 || w > ((UINT_MAX / f : Nat) : ℚ)
  | .setClock f => f > MAX_EVENT_FREQUENCY
  | .setPrescaler sel _ => sel ≥ NUMBER_OF_PRESCALERS
  | .setTTLSource t src => t ≥ NUMBER_OF_TTL || src ≥ NUMBER_OF_SOURCES
  | .setUNIVSource u src => u ≥ NUMBER_OF_UNIV || src ≥ NUMBER_OF_SOURCES
  | .enableCml c _ => c ≥ NUMBER_OF_CML
  | .setCmlPrescaler c _ => c ≥ NUMBER_OF_CML

/-- `configure`'s input validation fails (malformed arguments, full
registry, or unresolvable hostname). -/
def rejectsConfigure (resolver : String → Option Nat)
    (devices : List device_conf) (name ip port frequency : String) : Bool :=
  decide (devices.length ≥ NUMBER_OF_DEVICES) ||
  decide (name.length = 0 ∨ name.length ≥ NAME_LENGTH) ||
  decide (atoiInt port = 0 ∨ atoiInt port > (USHRT_MAX : Int)) ||
  decide (atoiInt frequency = 0) ||
  (resolver ip).isNone

/-- The message sends in a trace. -/
def sends (t : List Ev) : List Ev :=
  t.filter fun e => match e with | .send _ => true | _ => false

/-! ## Helper lemmas -/

theorem firstReply_of_all_none :
    ∀ l : List Attempt, (∀ a ∈ l, attemptReply a = none) → firstReply l = none
  | [], _ => rfl
  | a :: rest, h => by
    have ha := h a (List.mem_cons_self a rest)
    have hr := firstReply_of_all_none rest (fun x hx => h x (List.mem_cons_of_mem a hx))
    simp [firstReply, ha, hr]

@[simp] theorem Hw.emit_net (s : Hw) (e : Ev) : (s.emit e).net = s.net := rfl

@[simp] theorem Hw.emit_regs (s : Hw) (e : Ev) : (s.emit e).regs = s.regs := rfl

@[simp] theorem Hw.emit_trace (s : Hw) (e : Ev) :
    (s.emit e).trace = s.trace ++ [e] := rfl

@[simp] theorem Hw.write_net (s : Hw) (reg data : Nat) :
    (s.write reg data).net = s.net := rfl

@[simp] theorem Hw.write_trace (s : Hw) (reg data : Nat) :
    (s.write reg data).trace = s.trace := rfl

/-- On a fault-free network a `readreg` call returns the register's 16-bit
value and only appends the read request to the trace. -/
theorem readregOp_ok {s : Hw} (h : s.net = []) (reg : Nat) :
    readregOp reg s = (some (s.regs reg % 65536),
      s.emit (.send (readRequestBytes reg))) := by
  simp [readregOp, Hw.step, Hw.emit, Hw.read, h]

/-- On a fault-free network a `writereg` call latches the 16-bit value. -/
theorem writeregOp_ok {s : Hw} (h : s.net = []) (reg data : Nat) :
    writeregOp reg data s =
      (some (), (s.emit (.send (writeRequestBytes reg data))).write reg data) := by
  simp [writeregOp, Hw.step, Hw.emit, h]

/-- On a fault-free network a `writecheck` call succeeds: the write
latches, the read-back returns exactly the latched value. -/
theorem writecheckOp_ok {s : Hw} (h : s.net = []) (reg data : Nat) :
    writecheckOp reg data s =
      (0, (((s.emit (.send (writeRequestBytes reg data))).write reg data).emit
            (.send (readRequestBytes reg)))) := by
  have h1 : ((s.emit (.send (writeRequestBytes reg data))).write reg data).net = [] := by
    simp [h]
  simp only [writecheckOp, writeregOp_ok h, readregOp_ok h1]
  simp [Hw.write, Nat.mod_mod_of_dvd]

/-! ## Claim theorems -/

/-- A 12-byte reply carrying data value 5. -/
def replyFive : List Nat := [0, 0, 0, 5, 0, 0, 0, 0, 0, 0, 0, 0]

/-- A 12-byte reply carrying data value 7. -/
def replySeven : List Nat := [0, 0, 0, 7, 0, 0, 0, 0, 0, 0, 0, 0]

/-- C2, counterexample.  `writecheck` is a `writereg` followed by a
`readreg` of the same register with an equality check, and a mismatch
does make it fail — but the mismatch is returned as the very same error
value `-1` as a communication failure, so the two failure kinds are NOT
distinguishable by the caller.  Left scenario: every send of the write
call fails (communication failure).  Right scenario: the transport works
but the device reads back 7 after a write of 5 (verification failure).
Both return `-1`. -/
theorem writecheck_mismatch_error_equals_comm_error :
    writereg [Attempt.sendFail, Attempt.sendFail, Attempt.sendFail] 6 5 = none ∧
    writecheck [Attempt.sendFail, Attempt.sendFail, Attempt.sendFail] [] 6 5 = -1 ∧
    writereg [Attempt.recv replyFive] 6 5 = some () ∧
    readreg [Attempt.recv replySeven] 6 = some 7 ∧ (7 : Nat) ≠ 5 % 65536 ∧
    writecheck [Attempt.recv replyFive] [Attempt.recv replySeven] 6 5 = -1 ∧
    writecheck [Attempt.sendFail, Attempt.sendFail, Attempt.sendFail] [] 6 5 =
      writecheck [Attempt.recv replyFive] [Attempt.recv replySeven] 6 5 := by
  decide

/-- C2, amended.  `writecheck` performs `writereg` then `readreg` on the
same register address and compares the read-back value with the written
one; a mismatch makes the operation fail — but the failure is surfaced as
the same status code `-1` as a communication failure, so the two are not
distinguishable from the result. -/
theorem writecheck_write_read_compare (wsched rsched : List Attempt) (reg data : Nat) :
    (writereg wsched reg data = none → writecheck wsched rsched reg data = -1)
    ∧ (∀ v, writereg wsched reg data = some () → readreg rsched reg = some v →
        v ≠ data % 65536 → writecheck wsched rsched reg data = -1)
    ∧ (∀ v, writereg wsched reg data = some () → readreg rsched reg = some v →
        v = data % 65536 → writecheck wsched rsched reg data = 0) := by
  refine ⟨fun h => by simp [writecheck, h],
    fun v h1 h2 hne => by simp [writecheck, h1, h2, hne],
    fun v h1 h2 he => by simp [writecheck, h1, h2, he]⟩

/-- Witness for the amended C2 theorem at concrete schedules. -/
theorem writecheck_write_read_compare_witness :
    writecheck [Attempt.pollTimeout, Attempt.pollTimeout, Attempt.pollTimeout] [] 8 5 = -1 ∧
    writecheck [Attempt.recv replyFive] [Attempt.recv replyFive] 8 5 = 0 :=
  ⟨(writecheck_write_read_compare
      [Attempt.pollTimeout, Attempt.pollTimeout, Attempt.pollTimeout] [] 8 5).1 (by decide),
   (writecheck_write_read_compare
      [Attempt.recv replyFive] [Attempt.recv replyFive] 8 5).2.2 5 (by decide) (by decide)
      (by decide)⟩

/-- C3.  The transport performs at most `NUMBER_OF_RETRIES = 3` send/wait
attempts — the result only depends on the first three scheduled attempt
outcomes; if on some attempt the full 12-byte message is sent and a
full-size reply is received, the operation returns success, a read
returning the first full reply's data field byte-swapped back to host
order; and if all 3 attempts fail (send failure, timeout, or wrong-size
reply) it fails with the communication-error result. -/
theorem transport_retries_at_most_three (sched : List Attempt) (reg data : Nat) :
    (readreg sched reg = readreg (sched.take NUMBER_OF_RETRIES) reg
     ∧ writereg sched reg data = writereg (sched.take NUMBER_OF_RETRIES) reg data)
    ∧ ((∀ a ∈ sched.take NUMBER_OF_RETRIES, attemptReply a = none) →
        readreg sched reg = none ∧ writereg sched reg data = none)
    ∧ (∀ bs, firstReply (sched.take NUMBER_OF_RETRIES) = some bs →
        readreg sched reg = some (replyData bs) ∧ writereg sched reg data = some ())
    ∧ (∀ a1 a2 bs, attemptReply a1 = none → attemptReply a2 = none →
        bs.length = 12 →
        readreg [a1, a2, Attempt.recv bs] reg = some (replyData bs) ∧
        writereg [a1, a2, Attempt.recv bs] reg data = some ()) := by
  refine ⟨⟨?_, ?_⟩, ?_, ?_, ?_⟩
  · simp [readreg, NUMBER_OF_RETRIES, List.take_take]
  · simp [writereg, NUMBER_OF_RETRIES, List.take_take]
  · intro h
    have := firstReply_of_all_none _ h
    constructor <;> simp [readreg, writereg, this]
  · intro bs h
    constructor <;> simp [readreg, writereg, h]
  · intro a1 a2 bs h1 h2 hlen
    have hr : attemptReply (Attempt.recv bs) = some bs := by simp [attemptReply, hlen]
    have hf : firstReply [a1, a2, Attempt.recv bs] = some bs := by
      simp [firstReply, h1, h2, hr]
    constructor <;> simp [readreg, writereg, NUMBER_OF_RETRIES, List.take, hf]

/-- Witness for the C3 theorem: a transport that drops the first two of
three attempts and succeeds on the third yields success, and one that
drops all three yields the communication-error result. -/
theorem transport_retries_at_most_three_witness :
    (readreg [Attempt.sendFail, Attempt.pollTimeout, Attempt.recv replyFive] 6 =
       some (replyData replyFive)
     ∧ writereg [Attempt.sendFail, Attempt.pollTimeout, Attempt.recv replyFive] 6 9 =
       some ())
    ∧ (readreg [Attempt.sendFail, Attempt.recv [0], Attempt.pollTimeout] 6 = none
       ∧ writereg [Attempt.sendFail, Attempt.recv [0], Attempt.pollTimeout] 6 9 = none) :=
  ⟨(transport_retries_at_most_three [] 6 9).2.2.2 Attempt.sendFail Attempt.pollTimeout
      replyFive (by decide) (by decide) (by decide),
   (transport_retries_at_most_three
      [Attempt.sendFail, Attempt.recv [0], Attempt.pollTimeout] 6 9).2.1 (by decide)⟩

/-- C8.  Every register request transmitted by the transport is exactly
12 bytes: a 1-byte access field (1 for read, 2 for write), a 1-byte
status field sent as 0, a 16-bit data field holding the value for a write
and 0 for a read, a 32-bit address field holding
`0x7A000000 + register offset`, and a 32-bit reference field equal to 0 —
with the data and address fields in network byte order (big-endian), as
witnessed by recomposing the value from the individual bytes. -/
theorem register_message_wire_layout (reg data : Nat)
    (hreg : REGISTER_BASE_ADDRESS + reg < 4294967296) (hdata : data < 65536) :
    (readRequestBytes reg).length = 12
    ∧ (writeRequestBytes reg data).length = 12
    ∧ (readRequestBytes reg).getD 0 0 = ACCESS_READ
    ∧ (writeRequestBytes reg data).getD 0 0 = ACCESS_WRITE
    ∧ (readRequestBytes reg).getD 1 0 = 0
    ∧ (writeRequestBytes reg data).getD 1 0 = 0
    ∧ (readRequestBytes reg).getD 2 0 = 0 ∧ (readRequestBytes reg).getD 3 0 = 0
    ∧ (writeRequestBytes reg data).getD 2 0 * 256
        + (writeRequestBytes reg data).getD 3 0 = data
    ∧ (readRequestBytes reg).getD 4 0 * 16777216
        + (readRequestBytes reg).getD 5 0 * 65536
        + (readRequestBytes reg).getD 6 0 * 256
        + (readRequestBytes reg).getD 7 0 = REGISTER_BASE_ADDRESS + reg
    ∧ (writeRequestBytes reg data).getD 4 0 * 16777216
        + (writeRequestBytes reg data).getD 5 0 * 65536
        + (writeRequestBytes reg data).getD 6 0 * 256
        + (writeRequestBytes reg data).getD 7 0 = REGISTER_BASE_ADDRESS + reg
    ∧ (readRequestBytes reg).getD 8 0 = 0 ∧ (readRequestBytes reg).getD 9 0 = 0
    ∧ (readRequestBytes reg).getD 10 0 = 0 ∧ (readRequestBytes reg).getD 11 0 = 0
    ∧ (writeRequestBytes reg data).getD 8 0 = 0
    ∧ (writeRequestBytes reg data).getD 9 0 = 0
    ∧ (writeRequestBytes reg data).getD 10 0 = 0
    ∧ (writeRequestBytes reg data).getD 11 0 = 0 := by
  refine ⟨rfl, rfl, rfl, rfl, rfl, rfl, rfl, rfl, ?_, ?_, ?_, rfl, rfl, rfl, rfl,
    rfl, rfl, rfl, rfl⟩
  · simp only [writeRequestBytes, be16, be32, List.cons_append, List.nil_append,
      List.getD_cons_succ, List.getD_cons_zero]
    omega
  · simp only [readRequestBytes, be16, be32, List.cons_append, List.nil_append,
      List.getD_cons_succ, List.getD_cons_zero]
    unfold REGISTER_BASE_ADDRESS at hreg ⊢
    omega
  · simp only [writeRequestBytes, be16, be32, List.cons_append, List.nil_append,
      List.getD_cons_succ, List.getD_cons_zero]
    unfold REGISTER_BASE_ADDRESS at hreg ⊢
    omega

/-- Witness for the C8 theorem at the pulse-enable register offset `0x06`
and data value 5. -/
theorem register_message_wire_layout_witness :
    (readRequestBytes 6).length = 12
    ∧ (writeRequestBytes 6 5).length = 12
    ∧ (readRequestBytes 6).getD 0 0 = ACCESS_READ
    ∧ (writeRequestBytes 6 5).getD 0 0 = ACCESS_WRITE
    ∧ (readRequestBytes 6).getD 1 0 = 0
    ∧ (writeRequestBytes 6 5).getD 1 0 = 0
    ∧ (readRequestBytes 6).getD 2 0 = 0 ∧ (readRequestBytes 6).getD 3 0 = 0
    ∧ (writeRequestBytes 6 5).getD 2 0 * 256 + (writeRequestBytes 6 5).getD 3 0 = 5
    ∧ (readRequestBytes 6).getD 4 0 * 16777216
        + (readRequestBytes 6).getD 5 0 * 65536
        + (readRequestBytes 6).getD 6 0 * 256
        + (readRequestBytes 6).getD 7 0 = REGISTER_BASE_ADDRESS + 6
    ∧ (writeRequestBytes 6 5).getD 4 0 * 16777216
        + (writeRequestBytes 6 5).getD 5 0 * 65536
        + (writeRequestBytes 6 5).getD 6 0 * 256
        + (writeRequestBytes 6 5).getD 7 0 = REGISTER_BASE_ADDRESS + 6
    ∧ (readRequestBytes 6).getD 8 0 = 0 ∧ (readRequestBytes 6).getD 9 0 = 0
    ∧ (readRequestBytes 6).getD 10 0 = 0 ∧ (readRequestBytes 6).getD 11 0 = 0
    ∧ (writeRequestBytes 6 5).getD 8 0 = 0
    ∧ (writeRequestBytes 6 5).getD 9 0 = 0
    ∧ (writeRequestBytes 6 5).getD 10 0 = 0
    ∧ (writeRequestBytes 6 5).getD 11 0 = 0 :=
  register_message_wire_layout 6 5 (by decide) (by decide)

/-- A device in reset state (all registers 0), fault-free network, empty
trace. -/
def hw0 : Hw := { regs := fun _ => 0, net := [], trace := [] }

/-- C1 (code bug).  `evr_enableCml` is the one operation whose input
checks run BEFORE `pthread_mutex_lock`, yet its check-failure paths still
call `pthread_mutex_unlock`: called with the out-of-range CML index 3, the
whole execution trace is a single `unlock` event with no `lock` event
anywhere — the operation unlocks the device's mutex without having locked
it in the same call (undefined behaviour for a default pthread mutex, and
a contradiction of the lock discipline every other operation follows). -/
theorem enableCml_unlocks_without_lock :
    (evr_enableCml 3 true hw0).1 = -1
    ∧ (evr_enableCml 3 true hw0).2.trace = [Ev.unlock]
    ∧ Ev.lock ∉ (evr_enableCml 3 true hw0).2.trace := by
  refine ⟨rfl, rfl, by decide⟩

/-- A device whose control register has the flush bit (`0x0080`, bit 7)
set, with a fault-free network. -/
def controlState : Hw :=
  { regs := fun r => if r = REGISTER_CONTROL then CONTROL_FLUSH else 0,
    net := [], trace := [] }

/-- C5, counterexample.  Device-level `evr_enable` is NOT a
read-modify-write: it writes the whole control register with the fixed
constant `CONTROL_EVR_ENABLE | CONTROL_MAP_ENABLE` (= `0x8200`).  On a
device whose control register had bit 7 (`CONTROL_FLUSH`) set, a
successful enable clears that unrelated bit instead of retaining it. -/
theorem enable_device_overwrites_other_bits :
    (evr_enable true controlState).1 = 0
    ∧ Nat.testBit (controlState.regs REGISTER_CONTROL) 7 = true
    ∧ Nat.testBit ((evr_enable true controlState).2.regs REGISTER_CONTROL) 7 = false := by
  refine ⟨rfl, by decide, by decide⟩

/-- Bit-level effect of the enable-mask update `data |= (1<<p)` /
`data &= ~(1<<p)` on a 16-bit register value: bit `p` becomes the enable
flag, every other bit keeps its value. -/
theorem rmw_bits (old p : Nat) (b : Bool) (hold : old < 65536) (hp : p < 16) :
    Nat.testBit ((if b then old ||| (1 <<< p)
                  else old &&& (65535 ^^^ (1 <<< p))) % 65536) p = b
    ∧ ∀ i, i ≠ p →
      Nat.testBit ((if b then old ||| (1 <<< p)
                    else old &&& (65535 ^^^ (1 <<< p))) % 65536) i
        = Nat.testBit old i := by
  have hold' : old < 2 ^ 16 := by omega
  have hhigh : ∀ i, ¬ i < 16 → Nat.testBit old i = false := fun i hi =>
    Nat.testBit_lt_two_pow
      (lt_of_lt_of_le hold' (Nat.pow_le_pow_right (by norm_num) (by omega)))
  have hmask : (65535 ^^^ (1 <<< p)) = (2 ^ 16 - 1) ^^^ 2 ^ p := by
    rw [Nat.one_shiftLeft]; norm_num
  cases b with
  | true =>
    have hlt : old ||| 1 <<< p < 65536 := by
      rw [Nat.one_shiftLeft]
      have : old ||| 2 ^ p < 2 ^ 16 :=
        Nat.or_lt_two_pow hold' (Nat.pow_lt_pow_right (by norm_num) hp)
      omega
    rw [if_pos rfl, Nat.mod_eq_of_lt hlt, Nat.one_shiftLeft]
    refine ⟨?_, fun i hi => ?_⟩
    · simp [Nat.testBit_lor, Nat.testBit_two_pow_self]
    · by_cases hb : i < 16
      · simp [Nat.testBit_lor, Nat.testBit_two_pow_of_ne (Ne.symm hi)]
      · simp [Nat.testBit_lor, hhigh i hb, Nat.testBit_two_pow_of_ne (Ne.symm hi)]
  | false =>
    have hlt : old &&& (65535 ^^^ (1 <<< p)) < 65536 :=
      lt_of_le_of_lt Nat.and_le_left hold
    have h65535bit : ∀ i, Nat.testBit 65535 i = decide (i < 16) := fun i => by
      have h := Nat.testBit_two_pow_sub_one 16 i
      norm_num at h
      exact h
    rw [if_neg (by simp), Nat.mod_eq_of_lt hlt, hmask]
    refine ⟨?_, fun i hi => ?_⟩
    · simp [Nat.testBit_land, Nat.testBit_xor, Nat.testBit_two_pow_sub_one,
        Nat.testBit_two_pow_self, hp, h65535bit]
    · by_cases hb : i < 16
      · simp [Nat.testBit_land, Nat.testBit_xor, Nat.testBit_two_pow_sub_one,
          hb, Nat.testBit_two_pow_of_ne (Ne.symm hi), h65535bit]
      · simp [Nat.testBit_land, hhigh i hb]

/-- Closed form of `evr_enablePulser` on a fault-free network with a
valid pulser index: status 0 and the read-modify-write of the
pulse-enable register. -/
theorem enablePulser_ok {s : Hw} (hnet : s.net = []) {p : Nat}
    (hp : p < NUMBER_OF_PULSERS) (b : Bool) (r : Nat) :
    (evr_enablePulser p b s).1 = 0 ∧
    (evr_enablePulser p b s).2.regs r =
      if r = REGISTER_PULSE_ENABLE then
        (if b then (s.regs REGISTER_PULSE_ENABLE % 65536) ||| (1 <<< p)
         else (s.regs REGISTER_PULSE_ENABLE % 65536) &&& (65535 ^^^ (1 <<< p))) % 65536
      else s.regs r := by
  have hge : ¬ p ≥ NUMBER_OF_PULSERS := Nat.not_le.mpr hp
  constructor <;>
    simp [evr_enablePulser, hge, readregOp_ok, writecheckOp_ok, hnet, Hw.write]

/-- Closed form of `evr_enablePdp` on a fault-free network with a valid
PDP index. -/
theorem enablePdp_ok {s : Hw} (hnet : s.net = []) {q : Nat}
    (hq : q < NUMBER_OF_PDP) (c : Bool) (r : Nat) :
    (evr_enablePdp q c s).1 = 0 ∧
    (evr_enablePdp q c s).2.regs r =
      if r = REGISTER_PDP_ENABLE then
        (if c then (s.regs REGISTER_PDP_ENABLE % 65536) ||| (1 <<< q)
         else (s.regs REGISTER_PDP_ENABLE % 65536) &&& (65535 ^^^ (1 <<< q))) % 65536
      else s.regs r := by
  have hge : ¬ q ≥ NUMBER_OF_PDP := Nat.not_le.mpr hq
  constructor <;>
    simp [evr_enablePdp, hge, readregOp_ok, writecheckOp_ok, hnet, Hw.write]

/-- C5, amended.  The per-output enable/disable operations
(`evr_enablePulser`, `evr_enablePdp`) are read-modify-writes of their
bitmask register that set or clear exactly the bit of the given output
and leave every other bit and every other register unchanged; the
device-level `evr_enable`, by contrast, overwrites the whole control
register with the fixed constant `CONTROL_EVR_ENABLE | CONTROL_MAP_ENABLE`
(enable) or `0` (disable). -/
theorem enable_output_rmw_frame (s : Hw) (p q : Nat) (b c : Bool)
    (hnet : s.net = [])
    (hp : p < NUMBER_OF_PULSERS) (hq : q < NUMBER_OF_PDP)
    (hr : s.regs REGISTER_PULSE_ENABLE < 65536)
    (hr2 : s.regs REGISTER_PDP_ENABLE < 65536) :
    ((evr_enablePulser p b s).1 = 0
     ∧ Nat.testBit ((evr_enablePulser p b s).2.regs REGISTER_PULSE_ENABLE) p = b
     ∧ (∀ i, i ≠ p →
         Nat.testBit ((evr_enablePulser p b s).2.regs REGISTER_PULSE_ENABLE) i
           = Nat.testBit (s.regs REGISTER_PULSE_ENABLE) i)
     ∧ (∀ r, r ≠ REGISTER_PULSE_ENABLE →
         (evr_enablePulser p b s).2.regs r = s.regs r))
    ∧ ((evr_enablePdp q c s).1 = 0
     ∧ Nat.testBit ((evr_enablePdp q c s).2.regs REGISTER_PDP_ENABLE) q = c
     ∧ (∀ i, i ≠ q →
         Nat.testBit ((evr_enablePdp q c s).2.regs REGISTER_PDP_ENABLE) i
           = Nat.testBit (s.regs REGISTER_PDP_ENABLE) i)
     ∧ (∀ r, r ≠ REGISTER_PDP_ENABLE →
         (evr_enablePdp q c s).2.regs r = s.regs r))
    ∧ ((evr_enable true s).2.regs REGISTER_CONTROL
         = CONTROL_EVR_ENABLE ||| CONTROL_MAP_ENABLE
       ∧ (evr_enable false s).2.regs REGISTER_CONTROL = 0) := by
  have hmod : s.regs REGISTER_PULSE_ENABLE % 65536 = s.regs REGISTER_PULSE_ENABLE :=
    Nat.mod_eq_of_lt hr
  have hmod2 : s.regs REGISTER_PDP_ENABLE % 65536 = s.regs REGISTER_PDP_ENABLE :=
    Nat.mod_eq_of_lt hr2
  have hb := rmw_bits (s.regs REGISTER_PULSE_ENABLE) p b hr
    (by unfold NUMBER_OF_PULSERS at hp; omega)
  have hb2 := rmw_bits (s.regs REGISTER_PDP_ENABLE) q c hr2
    (by unfold NUMBER_OF_PDP at hq; omega)
  refine ⟨⟨(enablePulser_ok hnet hp b 0).1, ?_, fun i hi => ?_, fun r hrne => ?_⟩,
    ⟨(enablePdp_ok hnet hq c 0).1, ?_, fun i hi => ?_, fun r hrne => ?_⟩, ?_, ?_⟩
  · rw [(enablePulser_ok hnet hp b REGISTER_PULSE_ENABLE).2, if_pos rfl, hmod]
    exact hb.1
  · rw [(enablePulser_ok hnet hp b REGISTER_PULSE_ENABLE).2, if_pos rfl, hmod]
    exact hb.2 i hi
  · rw [(enablePulser_ok hnet hp b r).2, if_neg hrne]
  · rw [(enablePdp_ok hnet hq c REGISTER_PDP_ENABLE).2, if_pos rfl, hmod2]
    exact hb2.1
  · rw [(enablePdp_ok hnet hq c REGISTER_PDP_ENABLE).2, if_pos rfl, hmod2]
    exact hb2.2 i hi
  · rw [(enablePdp_ok hnet hq c r).2, if_neg hrne]
  · simp [evr_enable, writeregOp_ok, hnet, Hw.write]
    decide
  · simp [evr_enable, writeregOp_ok, hnet, Hw.write]

/-- A device with pulse-enable mask `0x2081`, PDP-enable mask `0x5`, a
fault-free network. -/
def rmwState : Hw :=
  { regs := fun r =>
      if r = REGISTER_PULSE_ENABLE then 0x2081
      else if r = REGISTER_PDP_ENABLE then 0x5 else 0,
    net := [], trace := [] }

/-- Witness for the amended C5 theorem on a device with pulser mask
`0x2081` and PDP mask `0x5`: enabling pulser 1 / disabling PDP 2. -/
theorem enable_output_rmw_frame_witness :
    ((evr_enablePulser 1 true rmwState).1 = 0
     ∧ Nat.testBit ((evr_enablePulser 1 true rmwState).2.regs REGISTER_PULSE_ENABLE) 1
         = true
     ∧ (∀ i, i ≠ 1 →
         Nat.testBit ((evr_enablePulser 1 true rmwState).2.regs REGISTER_PULSE_ENABLE) i
           = Nat.testBit (rmwState.regs REGISTER_PULSE_ENABLE) i)
     ∧ (∀ r, r ≠ REGISTER_PULSE_ENABLE →
         (evr_enablePulser 1 true rmwState).2.regs r = rmwState.regs r))
    ∧ ((evr_enablePdp 2 false rmwState).1 = 0
     ∧ Nat.testBit ((evr_enablePdp 2 false rmwState).2.regs REGISTER_PDP_ENABLE) 2
         = false
     ∧ (∀ i, i ≠ 2 →
         Nat.testBit ((evr_enablePdp 2 false rmwState).2.regs REGISTER_PDP_ENABLE) i
           = Nat.testBit (rmwState.regs REGISTER_PDP_ENABLE) i)
     ∧ (∀ r, r ≠ REGISTER_PDP_ENABLE →
         (evr_enablePdp 2 false rmwState).2.regs r = rmwState.regs r))
    ∧ ((evr_enable true rmwState).2.regs REGISTER_CONTROL
         = CONTROL_EVR_ENABLE ||| CONTROL_MAP_ENABLE
       ∧ (evr_enable false rmwState).2.regs REGISTER_CONTROL = 0) :=
  enable_output_rmw_frame rmwState 1 2 true false rfl (by decide) (by decide)
    (by decide) (by decide)

/-- C9, counterexample.  `writecheck`'s `data` parameter is `uint16_t`,
so the two halves `p/2` and `p − p/2` are truncated to 16 bits.  For
`p = 131072 = 2^17` the set succeeds but stores `0` (not `p/2 = 65536`)
in the high-prescaler register, and the following get returns `0`, not
`p`. -/
theorem cmlPrescaler_roundtrip_truncates :
    (evr_setCmlPrescaler 0 131072 hw0).1 = 0
    ∧ (131072 : Nat) / 2 = 65536
    ∧ (evr_setCmlPrescaler 0 131072 hw0).2.regs (REGISTER_CML4_HP + 0 * 0x20) = 0
    ∧ (evr_getCmlPrescaler 0 (evr_setCmlPrescaler 0 131072 hw0).2).1 = some 0 := by
  refine ⟨rfl, rfl, rfl, rfl⟩

/-- C9, amended.  For every CML channel 0–2 and every prescaler value
`p`, `evr_setCmlPrescaler` writes the LOW 16 BITS of `high = p/2` and
`low = p − p/2` to the channel's high/low prescaler registers (at a fixed
`0x20` stride from the channel-0 base); whenever `p ≤ 2·0xFFFF = 131070`
— so that both halves fit in 16 bits — the registers receive exactly
`p/2` and `p − p/2`, and a following `evr_getCmlPrescaler` returns `p`.
For larger `p` the halves are truncated and the round-trip fails, as the
counterexample shows. -/
theorem cmlPrescaler_roundtrip_bounded (s : Hw) (cml p : Nat)
    (hnet : s.net = []) (hc : cml < NUMBER_OF_CML) (hp : p ≤ 131070) :
    (evr_setCmlPrescaler cml p s).1 = 0
    ∧ (evr_setCmlPrescaler cml p s).2.regs (REGISTER_CML4_HP + cml * 0x20) = p / 2
    ∧ (evr_setCmlPrescaler cml p s).2.regs (REGISTER_CML4_LP + cml * 0x20) = p - p / 2
    ∧ (evr_getCmlPrescaler cml (evr_setCmlPrescaler cml p s).2).1 = some p := by
  have hge : ¬ cml ≥ NUMBER_OF_CML := Nat.not_le.mpr hc
  have hne : ¬ (REGISTER_CML4_HP + cml * 0x20 = REGISTER_CML4_LP + cml * 0x20) := by
    unfold REGISTER_CML4_HP REGISTER_CML4_LP
    omega
  have hhp : p / 2 % 65536 = p / 2 := Nat.mod_eq_of_lt (by omega)
  have hlp : (p - p / 2) % 65536 = p - p / 2 := Nat.mod_eq_of_lt (by omega)
  refine ⟨?_, ?_, ?_, ?_⟩
  · simp [evr_setCmlPrescaler, hge, writecheckOp_ok, hnet]
  · simp [evr_setCmlPrescaler, hge, writecheckOp_ok, hnet, Hw.write, hne, hhp]
  · simp [evr_setCmlPrescaler, hge, writecheckOp_ok, hnet, Hw.write, hlp]
  · simp [evr_setCmlPrescaler, evr_getCmlPrescaler, hge, writecheckOp_ok,
      readregOp_ok, hnet, Hw.write, hne, hhp, hlp]
    omega

/-- Witness for the amended C9 theorem: channel 1, prescaler 131070. -/
theorem cmlPrescaler_roundtrip_bounded_witness :
    (evr_setCmlPrescaler 1 131070 hw0).1 = 0
    ∧ (evr_setCmlPrescaler 1 131070 hw0).2.regs (REGISTER_CML4_HP + 1 * 0x20)
        = 131070 / 2
    ∧ (evr_setCmlPrescaler 1 131070 hw0).2.regs (REGISTER_CML4_LP + 1 * 0x20)
        = 131070 - 131070 / 2
    ∧ (evr_getCmlPrescaler 1 (evr_setCmlPrescaler 1 131070 hw0).2).1 = some 131070 :=
  cmlPrescaler_roundtrip_bounded hw0 1 131070 rfl (by decide) (by decide)

/-- C10, counterexample.  On a device whose pulse-prescaler register reads
back 0 (`hw0`: all registers 0), both `evr_setPdpDelay` and
`evr_setPdpWidth` reach the microseconds-to-cycles conversion with divisor
0 — the code performs no zero check on the prescaler it just read.  The
`conv` event records the divisor used at the conversion. -/
theorem setPdp_divides_by_zero_prescaler :
    Ev.conv 0 ∈ (evr_setPdpDelay 125 0 1 hw0).2.trace
    ∧ Ev.conv 0 ∈ (evr_setPdpWidth 125 0 1 hw0).2.trace := by
  have hv : ¬ ((1 : ℚ) < 0 ∨ (1 : ℚ) > ((UINT_MAX / 125 : Nat) : ℚ)) := by
    push_neg
    norm_num [UINT_MAX]
  constructor
  · norm_num [evr_setPdpDelay, hv, writecheckOp_ok, readregOp_ok, Hw.write, hw0,
      NUMBER_OF_PDP, REGISTER_PULSE_PRESCALAR, REGISTER_PULSE_SELECT, UINT_MAX]
  · norm_num [evr_setPdpWidth, hv, writecheckOp_ok, readregOp_ok, Hw.write, hw0,
      NUMBER_OF_PDP, REGISTER_PULSE_PRESCALAR, REGISTER_PULSE_SELECT, UINT_MAX]

/-- C10, amended.  On every execution of `evr_setPdpDelay` /
`evr_setPdpWidth` that reaches the conversion, the divisor is exactly the
16-bit prescaler value just read back from the device — the code has no
zero check, so the divisor is nonzero only when the device's
pulse-prescaler register holds a nonzero value. -/
theorem setPdp_divisor_is_readback_prescaler (s : Hw) (freq pdp : Nat) (d w : ℚ)
    (hnet : s.net = []) (htr : s.trace = []) (hp : pdp < NUMBER_OF_PDP)
    (hd0 : 0 ≤ d) (hd1 : d ≤ ((UINT_MAX / freq : Nat) : ℚ))
    (hwa : 0 ≤ w) (hwb : w ≤ ((UINT_MAX / freq : Nat) : ℚ)) :
    (Ev.conv (s.regs REGISTER_PULSE_PRESCALAR % 65536)
        ∈ (evr_setPdpDelay freq pdp d s).2.trace
     ∧ ∀ n, Ev.conv n ∈ (evr_setPdpDelay freq pdp d s).2.trace →
         n = s.regs REGISTER_PULSE_PRESCALAR % 65536)
    ∧ (Ev.conv (s.regs REGISTER_PULSE_PRESCALAR % 65536)
        ∈ (evr_setPdpWidth freq pdp w s).2.trace
     ∧ ∀ n, Ev.conv n ∈ (evr_setPdpWidth freq pdp w s).2.trace →
         n = s.regs REGISTER_PULSE_PRESCALAR % 65536) := by
  have hge : ¬ pdp ≥ NUMBER_OF_PDP := Nat.not_le.mpr hp
  have hvd : ¬ (d < 0 ∨ d > ((UINT_MAX / freq : Nat) : ℚ)) := by
    push_neg
    exact ⟨hd0, hd1⟩
  have hvw : ¬ (w < 0 ∨ w > ((UINT_MAX / freq : Nat) : ℚ)) := by
    push_neg
    exact ⟨hwa, hwb⟩
  have hsel : ¬ (REGISTER_PULSE_PRESCALAR = REGISTER_PULSE_SELECT) := by
    unfold REGISTER_PULSE_PRESCALAR REGISTER_PULSE_SELECT
    omega
  constructor
  · constructor
    · simp [evr_setPdpDelay, hge, hvd, writecheckOp_ok, readregOp_ok, hnet,
        Hw.write, htr, hsel]
    · intro n hn
      simp [evr_setPdpDelay, hge, hvd, writecheckOp_ok, readregOp_ok, hnet,
        Hw.write, htr, hsel] at hn
      exact hn
  · constructor
    · simp [evr_setPdpWidth, hge, hvw, writecheckOp_ok, readregOp_ok, hnet,
        Hw.write, htr, hsel]
    · intro n hn
      simp [evr_setPdpWidth, hge, hvw, writecheckOp_ok, readregOp_ok, hnet,
        Hw.write, htr, hsel] at hn
      exact hn

/-- A device whose pulse-prescaler register holds 1, fault-free network,
empty trace. -/
def prescalerOneState : Hw :=
  { regs := fun r => if r = REGISTER_PULSE_PRESCALAR then 1 else 0,
    net := [], trace := [] }

/-- Witness for the amended C10 theorem: frequency 125 MHz, PDP 2,
delay and width 10 µs, a device whose prescaler register holds 1. -/
theorem setPdp_divisor_is_readback_prescaler_witness :
    (Ev.conv (prescalerOneState.regs REGISTER_PULSE_PRESCALAR % 65536)
        ∈ (evr_setPdpDelay 125 2 10 prescalerOneState).2.trace
     ∧ ∀ n, Ev.conv n ∈ (evr_setPdpDelay 125 2 10 prescalerOneState).2.trace →
         n = prescalerOneState.regs REGISTER_PULSE_PRESCALAR % 65536)
    ∧ (Ev.conv (prescalerOneState.regs REGISTER_PULSE_PRESCALAR % 65536)
        ∈ (evr_setPdpWidth 125 2 10 prescalerOneState).2.trace
     ∧ ∀ n, Ev.conv n ∈ (evr_setPdpWidth 125 2 10 prescalerOneState).2.trace →
         n = prescalerOneState.regs REGISTER_PULSE_PRESCALAR % 65536) :=
  setPdp_divisor_is_readback_prescaler prescalerOneState 125 2 10 10 rfl rfl
    (by decide) (by norm_num) (by norm_num [UINT_MAX]) (by norm_num)
    (by norm_num [UINT_MAX])

/-- A resolver that resolves every hostname to `127.0.0.1`
(`0x7F000001`). -/
def resolverLocal : String → Option Nat := fun _ => some 2130706433

/-- A registry already holding a device named `evr1`. -/
def registryOne : List device_conf :=
  [{ name := "evr1", ip := 2130706433, port := htons16 2000, frequency := 125 }]

/-- C6, counterexample.  `configure` has NO duplicate-name check: with
`evr1` already registered, a second `configure` call with the same name
(and otherwise valid arguments) succeeds and appends a second slot, so the
registry now holds two devices named `evr1` — the name does not remain
unique. -/
theorem configure_duplicate_name_accepted :
    registryOne.map device_conf.name = ["evr1"]
    ∧ (configure resolverLocal registryOne "evr1" "127.0.0.1" "2000" "125").isSome = true
    ∧ ((configure resolverLocal registryOne "evr1" "127.0.0.1" "2000" "125").getD
        []).length = 2
    ∧ (((configure resolverLocal registryOne "evr1" "127.0.0.1" "2000" "125").getD
        []).filter (fun d => d.name = "evr1")).length = 2 := by
  decide

/-- C6, amended.  `configure` never checks whether the name is already
registered: whenever the other validations pass (registry not full, name
non-empty and within the length bound, port and frequency parse to valid
values, hostname resolvable), a call whose name is already in the registry
still succeeds, reserves a new slot, and leaves the registry with at least
two entries of that name. -/
theorem configure_no_duplicate_name_check (resolver : String → Option Nat)
    (st : List device_conf) (name ip port freq : String) (addr : Nat)
    (hfull : st.length < NUMBER_OF_DEVICES)
    (hname : name.length ≠ 0 ∧ name.length < NAME_LENGTH)
    (hport : atoiInt port ≠ 0 ∧ atoiInt port ≤ (USHRT_MAX : Int))
    (hfreq : atoiInt freq ≠ 0)
    (hres : resolver ip = some addr)
    (hdup : name ∈ st.map device_conf.name) :
    ∃ st2, configure resolver st name ip port freq = some st2
      ∧ st2.length = st.length + 1
      ∧ 2 ≤ (st2.filter (fun d => d.name = name)).length := by
  have h1 : ¬ st.length ≥ NUMBER_OF_DEVICES := Nat.not_le.mpr hfull
  have h2 : ¬ (name.length = 0 ∨ name.length ≥ NAME_LENGTH) := by
    push_neg
    exact ⟨hname.1, hname.2⟩
  have h3 : ¬ (atoiInt port = 0 ∨ atoiInt port > (USHRT_MAX : Int)) := by
    push_neg
    exact ⟨hport.1, hport.2⟩
  have heq : configure resolver st name ip port freq =
      some (st ++ [(⟨name, addr, htons16 ((atoiInt port).toNat % 65536),
                     (atoiInt freq).toNat % 4294967296⟩ : device_conf)]) := by
    simp [configure, h1, h2, h3, hfreq, hres]
  refine ⟨_, heq, by simp, ?_⟩
  have hone : 1 ≤ (st.filter (fun d => d.name = name)).length := by
    rcases List.mem_map.mp hdup with ⟨d, hd, hdn⟩
    have hmem : d ∈ st.filter (fun d => d.name = name) :=
      List.mem_filter.mpr ⟨hd, by simp [hdn]⟩
    exact List.length_pos_of_mem hmem
  rw [List.filter_append, List.length_append]
  have hnew : (List.filter (fun d => decide (d.name = name))
      [(⟨name, addr, htons16 ((atoiInt port).toNat % 65536),
         (atoiInt freq).toNat % 4294967296⟩ : device_conf)]).length = 1 := by
    simp
  omega

/-- Witness for the amended C6 theorem at the concrete duplicate
registration of `evr1`. -/
theorem configure_no_duplicate_name_check_witness :
    ∃ st2, configure resolverLocal registryOne "evr1" "127.0.0.1" "2000" "125"
        = some st2
      ∧ st2.length = registryOne.length + 1
      ∧ 2 ≤ (st2.filter (fun d => d.name = "evr1")).length :=
  configure_no_duplicate_name_check resolverLocal registryOne "evr1" "127.0.0.1"
    "2000" "125" 2130706433 (by decide) (by decide) (by decide) (by decide) rfl
    (by decide)

theorem sends_append_lock_unlock (t : List Ev) :
    sends (t ++ [Ev.lock, Ev.unlock]) = sends t := by
  simp [sends, List.filter_append]

theorem sends_append_unlock (t : List Ev) :
    sends (t ++ [Ev.unlock]) = sends t := by
  simp [sends, List.filter_append]

/-- C7.  Whenever a hardware-control operation rejects its arguments
during input validation, it returns `-1` before any register message is
sent (its trace gains no `send` event) and the device register file is
left unchanged; and whenever `configure` rejects its arguments, it fails
without reserving a registry slot (the C global registry is untouched). -/
theorem validation_failure_sends_nothing :
    (∀ (op : CoreOp) (s : Hw), rejectsOp op = true →
       (runOp op s).1 = -1
       ∧ (runOp op s).2.regs = s.regs
       ∧ sends (runOp op s).2.trace = sends s.trace)
    ∧ (∀ (resolver : String → Option Nat) (st : List device_conf)
        (name ip port frequency : String),
        rejectsConfigure resolver st name ip port frequency = true →
        configure resolver st name ip port frequency = none) := by
  constructor
  · intro op s h
    cases op with
    | enablePulser p b =>
      simp only [rejectsOp, decide_eq_true_eq] at h
      simp [runOp, evr_enablePulser, h, sends_append_lock_unlock]
    | enablePdp p b =>
      simp only [rejectsOp, decide_eq_true_eq] at h
      simp [runOp, evr_enablePdp, h, sends_append_lock_unlock]
    | setPulserDelay f p d =>
      simp only [rejectsOp, Bool.or_eq_true, decide_eq_true_eq] at h
      by_cases h1 : p ≥ NUMBER_OF_PULSERS
      · simp [runOp, evr_setPulserDelay, h1, sends_append_lock_unlock]
      · have h2 : d < 0 ∨ d > ((UINT_MAX / f : Nat) : ℚ) := by tauto
        simp [runOp, evr_setPulserDelay, h1, h2, sends_append_lock_unlock]
    | setPulserWidth f p w =>
      simp only [rejectsOp, Bool.or_eq_true, decide_eq_true_eq] at h
      by_cases h1 : p ≥ NUMBER_OF_PULSERS
      · simp [runOp, evr_setPulserWidth, h1, sends_append_lock_unlock]
      · have h2 : w < 0 ∨ w > ((USHRT_MAX / f : Nat) : ℚ) := by tauto
        simp [runOp, evr_setPulserWidth, h1, h2, sends_append_lock_unlock]
    | setPdpPrescaler p v =>
      simp only [rejectsOp, decide_eq_true_eq] at h
      simp [runOp, evr_setPdpPrescaler, h, sends_append_lock_unlock]
    | setPdpDelay f p d =>
      simp only [rejectsOp, Bool.or_eq_true, decide_eq_true_eq] at h
      by_cases h1 : p ≥ NUMBER_OF_PDP
      · simp [runOp, evr_setPdpDelay, h1, sends_append_lock_unlock]
      · have h2 : d < 0 ∨ d > ((UINT_MAX / f : Nat) : ℚ) := by tauto
        simp [runOp, evr_setPdpDelay, h1, h2, sends_append_lock_unlock]
    | setPdpWidth f p w =>
      simp only [rejectsOp, Bool.or_eq_true, decide_eq_true_eq] at h
      by_cases h1 : p ≥ NUMBER_OF_PDP
      · simp [runOp, evr_setPdpWidth, h1, sends_append_lock_unlock]
      · have h2 : w < 0 ∨ w > ((UINT_MAX / f : Nat) : ℚ) := by tauto
        simp [runOp, evr_setPdpWidth, h1, h2, sends_append_lock_unlock]
    | setClock f =>
      simp only [rejectsOp, decide_eq_true_eq] at h
      simp [runOp, evr_setClock, h, sends_append_lock_unlock]
    | setPrescaler sel v =>
      simp only [rejectsOp, decide_eq_true_eq] at h
      simp [runOp, evr_setPrescaler, h, sends_append_lock_unlock]
    | setTTLSource t src =>
      simp only [rejectsOp, Bool.or_eq_true, decide_eq_true_eq] at h
      by_cases h1 : t ≥ NUMBER_OF_TTL
      · simp [runOp, evr_setTTLSource, h1, sends_append_lock_unlock]
      · have h2 : src ≥ NUMBER_OF_SOURCES := by tauto
        simp [runOp, evr_setTTLSource, h1, h2, sends_append_lock_unlock]
    | setUNIVSource u src =>
      simp only [rejectsOp, Bool.or_eq_true, decide_eq_true_eq] at h
      by_cases h1 : u ≥ NUMBER_OF_UNIV
      · simp [runOp, evr_setUNIVSource, h1, sends_append_lock_unlock]
      · have h2 : src ≥ NUMBER_OF_SOURCES := by tauto
        simp [runOp, evr_setUNIVSource, h1, h2, sends_append_lock_unlock]
    | enableCml c b =>
      simp only [rejectsOp, decide_eq_true_eq] at h
      simp [runOp, evr_enableCml, h, sends_append_unlock]
    | setCmlPrescaler c v =>
      simp only [rejectsOp, decide_eq_true_eq] at h
      simp [runOp, evr_setCmlPrescaler, h, sends_append_lock_unlock]
  · intro resolver st name ip port frequency h
    by_cases h1 : st.length ≥ NUMBER_OF_DEVICES
    · simp [configure, h1]
    · by_cases h2 : name.length = 0 ∨ name.length ≥ NAME_LENGTH
      · simp [configure, h1, h2]
      · by_cases h3 : atoiInt port = 0 ∨ atoiInt port > (USHRT_MAX : Int)
        · simp [configure, h1, h2, h3]
        · by_cases h4 : atoiInt frequency = 0
          · simp [configure, h1, h2, h3, h4]
          · have h5 : resolver ip = none := by
              simp only [rejectsConfigure, Bool.or_eq_true, decide_eq_true_eq,
                Option.isNone_iff_eq_none] at h
              tauto
            simp [configure, h1, h2, h3, h4, h5]

/-- Witness for the C7 theorem: `evr_setClock` with the over-range
frequency 126 MHz, and `configure` with an empty name. -/
theorem validation_failure_sends_nothing_witness :
    ((runOp (CoreOp.setClock 126) hw0).1 = -1
     ∧ (runOp (CoreOp.setClock 126) hw0).2.regs = hw0.regs
     ∧ sends (runOp (CoreOp.setClock 126) hw0).2.trace = sends hw0.trace)
    ∧ configure resolverLocal [] "" "127.0.0.1" "2000" "125" = none :=
  ⟨validation_failure_sends_nothing.1 (CoreOp.setClock 126) hw0 (by decide),
   validation_failure_sends_nothing.2 resolverLocal [] "" "127.0.0.1" "2000" "125"
     (by decide)⟩

end Evr
